import Mathlib

/-!
Shallow embedding of `src/modules/host.py` (HostHandler), the host lifecycle
manager of the cello repository.

Modelling conventions:
* Mongo documents become a `Host` structure; the `host` collection becomes a
  `HostStore := List Host` in insertion order.  `find_one` is `List.find?`,
  `find_one_and_update` (with `ReturnDocument.AFTER`) updates the first
  matching record and returns it, `delete_one` erases the first match.
* Python values that flow into the loosely typed `schedulable` field (strings
  on create, booleans in `clean`) are modelled by `PyVal`; Python truthiness
  is `PyVal.truthy`.
* External collaborators (`check_daemon`, `detect_daemon_type`,
  `setup_container_host`, `reset_container_host`, the cluster provisioner's
  `find_free_api_ports`) are an `Env` of pure functions; every call into a
  collaborator or into the store is also recorded in an observable `Effect`
  trace, so that frame claims ("no store call", "no provisioner call") are
  statable.  Thread dispatch (`Thread(target=...).start()`) is modelled as a
  dispatch effect: the spawned body runs outside the caller, so only the
  dispatch itself is observable to this core.
* Python exceptions escaping an operation are modelled with `Except PyErr`.
* `_serialize` restricts a document to a fixed key set; on the typed `Host`
  record it is the identity, and `_serialize(None) = {}` is `Option.none`.
-/

/-- A loosely typed Python value, as stored in the `schedulable` field and
passed as the `capacity` entry of an update dict. -/
inductive PyVal where
  | str (s : String)
  | bool (b : Bool)
  | int (n : Int)
deriving Repr, DecidableEq

/-- Python truthiness of a `PyVal` (`bool(v)`). -/
def PyVal.truthy : PyVal → Bool
  | .str s => !(s == "")
  | .bool b => b
  | .int n => !(n == 0)

/-- A Python exception escaping an operation uncaught. -/
inductive PyErr where
  | keyError (k : String)
  | valueError (s : String)
  | typeError (s : String)
deriving Repr, DecidableEq

/-- Python `int(v)` coercion: identity on ints, 0/1 on bools, parse on
strings (raising `ValueError` when the string is not an integer literal). -/
def pyInt : PyVal → Except PyErr Int
  | .int n => .ok n
  | .bool b => .ok (if b then 1 else 0)
  | .str s =>
      match s.trim.toInt? with
      | some n => .ok n
      | none => .error (PyErr.valueError s)

/-- Python `s.startswith(pre)`. -/
def pyStartswith (s pre : String) : Bool :=
  pre.data.isPrefixOf s.data

/-- Does `sub` occur as a contiguous run inside `l`? -/
def listInfix (sub : List Char) : List Char → Bool
  | [] => sub.isEmpty
  | c :: t => sub.isPrefixOf (c :: t) || listInfix sub t

/-- Python `sub in s` (substring containment). -/
def pyContains (s sub : String) : Bool :=
  listInfix sub.data s.data

/-- The `daemon_url` normalization repeated at host.py:64-65 (create) and
host.py:142-143 (update): prepend the default transport scheme when the url
does not already start with it. -/
def normalize_daemon_url (u : String) : String :=
  if pyStartswith u "tcp://" then u else "tcp://" ++ u

/-- The `log_server` normalization at host.py:71-72 and host.py:150-151:
prepend the datagram scheme when no scheme separator is present. -/
def normalize_log_server (ls : String) : String :=
  if pyContains ls "://" then ls else "udp://" ++ ls

/-- Modelled from the spec: the `common` module (not under src/) defines the
`LOG_TYPES` catalog whose first element is the "none"-style sentinel log type;
when `log_type` equals it, `log_server` is forced empty.  The concrete string
is opaque to the control logic, which only compares against it. -/
def LOG_TYPES_0 : String := "local"

/-- Modelled from the spec: default log level `LOGGING_LEVEL_CLUSTERS[0]` of
the `common` module (opaque to the control logic). -/
def LOGGING_LEVEL_CLUSTERS_0 : String := "DEBUG"

/-- A persisted Host record (the document layout built at host.py:88-100,
plus the public `id` set right after insertion). -/
structure Host where
  id : String
  name : String
  daemon_url : String
  create_ts : Nat
  capacity : Int
  status : String
  clusters : List String
  type : String
  log_level : String
  log_type : String
  log_server : String
  schedulable : PyVal
deriving Repr, DecidableEq

/-- The host collection, in insertion order. -/
abbrev HostStore := List Host

/-- A `$set` document over the Host fields this core ever writes
(`db_set_by_id` kwargs and the update dict passed through `update`). -/
structure Patch where
  name : Option String
  daemon_url : Option String
  capacity : Option Int
  log_server : Option String
  log_type : Option String
  schedulable : Option PyVal
  status : Option String
deriving Repr, DecidableEq

/-- The empty `$set` document. -/
def Patch.empty : Patch :=
  ⟨none, none, none, none, none, none, none⟩

/-- Apply a `$set` document to a record: last-writer-wins per field. -/
def applyPatch (p : Patch) (h : Host) : Host :=
  { h with
    name := p.name.getD h.name
    daemon_url := p.daemon_url.getD h.daemon_url
    capacity := p.capacity.getD h.capacity
    log_server := p.log_server.getD h.log_server
    log_type := p.log_type.getD h.log_type
    schedulable := p.schedulable.getD h.schedulable
    status := p.status.getD h.status }

/-- The `schedulable=False` / `schedulable=True` kwargs written by `clean`
(host.py:242 and host.py:248): Python booleans, not strings. -/
def sched_patch (b : Bool) : Patch :=
  { Patch.empty with schedulable := some (PyVal.bool b) }

/-- Observable effects: every store access, collaborator call and task
dispatch performed by an operation, in program order. -/
inductive Effect where
  | storeFindOne (field : String) (value : String)
  | storeInsert (h : Host)
  | storeSetId (hid : String)
  | storeSet (id : String) (p : Patch)
  | storeDelete (id : String)
  | provFindPorts (hostId : String) (n : Int)
  | provCreateDispatch (port : Int)
  | provDeleteDispatch (cid : String)
  | daemonCheck (url : String)
  | daemonDetect (url : String)
  | daemonSetup (t : String) (url : String)
  | daemonCleanup (url : String)
  | daemonReset (t : String) (url : String)
deriving Repr, DecidableEq

/-- Is the effect any call into the host store (read or write)? -/
def Effect.isStore : Effect → Bool
  | .storeFindOne _ _ => true
  | .storeInsert _ => true
  | .storeSetId _ => true
  | .storeSet _ _ => true
  | .storeDelete _ => true
  | _ => false

/-- Is the effect a write into the host store? -/
def Effect.isStoreWrite : Effect → Bool
  | .storeInsert _ => true
  | .storeSetId _ => true
  | .storeSet _ _ => true
  | .storeDelete _ => true
  | _ => false

/-- Is the effect a call into the cluster provisioner? -/
def Effect.isProv : Effect → Bool
  | .provFindPorts _ _ => true
  | .provCreateDispatch _ => true
  | .provDeleteDispatch _ => true
  | _ => false

/-- Is the effect an insertion of a record into the host store? -/
def Effect.isInsert : Effect → Bool
  | .storeInsert _ => true
  | _ => false

/-- External collaborators, as pure functions of their arguments, plus the
ambient data (`datetime.now()`, the fresh storage id of `insert_one`). -/
structure Env where
  check_daemon : String → Bool
  detect_daemon_type : String → String
  setup_container_host : String → String → Bool
  reset_container_host : String → String → Bool
  find_free_api_ports : String → Int → List Int
  now : Nat
  fresh_id : String

/-- Decidable equality for `Except` results (not derived in core). -/
instance exceptDecEq {ε α : Type} [DecidableEq ε] [DecidableEq α] :
    DecidableEq (Except ε α) := fun a b =>
  match a, b with
  | .ok x, .ok y =>
      if h : x = y then .isTrue (by rw [h])
      else .isFalse (fun he => h (Except.ok.inj he))
  | .error x, .error y =>
      if h : x = y then .isTrue (by rw [h])
      else .isFalse (fun he => h (Except.error.inj he))
  | .ok _, .error _ => .isFalse (fun he => Except.noConfusion he)
  | .error _, .ok _ => .isFalse (fun he => Except.noConfusion he)

/-- Result of one operation: its Python return value, the store afterwards,
and the trace of effects it performed. -/
structure OpResult (α : Type) where
  ret : α
  store : HostStore
  effs : List Effect
deriving Repr, DecidableEq

/-- `col.find_one({"id": id})`: first record with the given public id. -/
def find_one_by_id (s : HostStore) (id : String) : Option Host :=
  s.find? (fun h => h.id == id)

/-- `col.find_one({"daemon_url": u})`: first record with the given url. -/
def find_one_by_url (s : HostStore) (u : String) : Option Host :=
  s.find? (fun h => h.daemon_url == u)

/-- `col.find_one_and_update({"id": id}, {"$set": p}, AFTER)`: update the
first matching record and return it post-mutation. -/
def findOneAndUpdateAfter (id : String) (p : Patch) :
    HostStore → Option Host × HostStore
  | [] => (none, [])
  | h :: t =>
      if h.id == id then (some (applyPatch p h), applyPatch p h :: t)
      else
        let r := findOneAndUpdateAfter id p t
        (r.1, h :: r.2)

namespace HostHandler

/-- `get_by_id` (host.py:114-125): store read; `{}` when absent becomes
`none`; `_serialize` on a record is the identity here. -/
def get_by_id (s : HostStore) (id : String) : Option Host × List Effect :=
  (find_one_by_id s id, [Effect.storeFindOne "id" id])

/-- `is_active` (host.py:285-296): exists and `status == "active"`. -/
def is_active (s : HostStore) (host_id : String) : Bool × List Effect :=
  let g := get_by_id s host_id
  match g.1 with
  | none => (false, g.2)
  | some host => (host.status == "active", g.2)

/-- `db_set_by_id` (host.py:328-335) via `db_update_one` with AFTER: set the
kv pairs on the first matching record and return the updated record
(`_serialize(None) = {}` becomes `none` when the id is unknown). -/
def db_set_by_id (s : HostStore) (id : String) (p : Patch) :
    OpResult (Option Host) :=
  let r := findOneAndUpdateAfter id p s
  ⟨r.1, r.2, [Effect.storeSet id p]⟩

/-- `fillup` (host.py:185-225), including its `check_status` gate
(host.py:24-31).  Cluster-creation worker threads are modelled as one
dispatch effect per allocated port; the randomized consensus/size choices and
the worker bodies run outside this call and are not observable here. -/
def fillup (env : Env) (s : HostStore) (id : String) : OpResult Bool :=
  let gate := is_active s id
  if !gate.1 then ⟨false, s, gate.2⟩
  else
    let g := get_by_id s id
    let effs := gate.2 ++ g.2
    match g.1 with
    | none => ⟨false, s, effs⟩
    | some host =>
      let num_new : Int := host.capacity - host.clusters.length
      if num_new ≤ 0 then ⟨true, s, effs⟩
      else
        let ports := env.find_free_api_ports id num_new
        ⟨true, s, effs ++ [Effect.provFindPorts id num_new]
                    ++ ports.map Effect.provCreateDispatch⟩

/-- An update dict `d` for `update(id, d)`: each key is present or absent.
Keys other than these are passed through `$set` unvalidated in the source;
`name` stands for such an untouched key. -/
structure UpdateDict where
  name : Option String
  daemon_url : Option String
  capacity : Option PyVal
  log_server : Option String
  log_type : Option String
deriving Repr, DecidableEq

/-- The `TypeError` text raised at host.py:154: `self.db_set_by_id(id, d)`
passes the dict as a positional argument, but `db_set_by_id(self, id,
**kwargs)` accepts only keyword pairs. -/
def db_set_by_id_typeerror_msg : String :=
  "db_set_by_id() takes 2 positional arguments but 3 were given"

/-- `update` (host.py:127-155).  Faithful to the source's control flow, which
has two slips: (1) the capacity guard at host.py:147 reads `d["capacity"]`
OUTSIDE the `"capacity" in d` check at host.py:145, so a dict without a
capacity key raises `KeyError` once the host was found; (2) when the guard
passes, host.py:154 calls `self.db_set_by_id(id, d)` with the dict as a
positional argument, but `db_set_by_id` takes only `**kwargs`, so the call
raises an uncaught `TypeError` before any store write — no `update` call
ever persists anything.  The in-place normalizations of `d` at
host.py:142-143 and host.py:150-153 run before the crash but touch only the
local dict, never the store. -/
def update (s : HostStore) (id : String) (d : UpdateDict) :
    OpResult (Except PyErr (Option Host)) :=
  let g := get_by_id s id
  match g.1 with
  | none => ⟨.ok none, s, g.2⟩
  | some h_old =>
    let d := { d with daemon_url := d.daemon_url.map normalize_daemon_url }
    let capCoerced : Except PyErr (Option Int) :=
      match d.capacity with
      | none => .ok none
      | some v => (pyInt v).map some
    match capCoerced with
    | .error e => ⟨.error e, s, g.2⟩
    | .ok cap? =>
      match cap? with
      | none => ⟨.error (PyErr.keyError "capacity"), s, g.2⟩
      | some c =>
        if c < (h_old.clusters.length : Int) then ⟨.ok none, s, g.2⟩
        else ⟨.error (PyErr.typeError HostHandler.db_set_by_id_typeerror_msg), s, g.2⟩

/-- `delete` (host.py:166-183): fail when absent or `clusters` truthy;
otherwise daemon-side cleanup, then remove the record. -/
def delete (s : HostStore) (id : String) : OpResult Bool :=
  let g := get_by_id s id
  match g.1 with
  | none => ⟨false, s, g.2⟩
  | some h =>
    if !h.clusters.isEmpty then ⟨false, s, g.2⟩
    else
      ⟨true, List.eraseP (fun x => x.id == id) s,
        g.2 ++ [Effect.daemonCleanup h.daemon_url, Effect.storeDelete id]⟩

/-- `clean` (host.py:227-250) with its `check_status` gate: no-op success on
an empty cluster list; otherwise write `schedulable=False`, dispatch one
delete task per cluster id of the re-read record in list order, then write
`schedulable=True` and return success. -/
def clean (s : HostStore) (id : String) : OpResult Bool :=
  let gate := is_active s id
  if !gate.1 then ⟨false, s, gate.2⟩
  else
    let g := get_by_id s id
    let effs := gate.2 ++ g.2
    match g.1 with
    | none => ⟨false, s, effs⟩
    | some host =>
      if host.clusters.length ≤ 0 then ⟨true, s, effs⟩
      else
        let w1 := db_set_by_id s id (sched_patch false)
        let clusters2 :=
          match w1.ret with
          | some h2 => h2.clusters
          | none => []
        let dels := clusters2.map Effect.provDeleteDispatch
        let w2 := db_set_by_id w1.store id (sched_patch true)
        ⟨true, w2.store, effs ++ w1.effs ++ dels ++ w2.effs⟩

/-- `reset` (host.py:252-266) with its `check_status` gate: only on an active
host with no clusters; returns the collaborator's verdict verbatim. -/
def reset (env : Env) (s : HostStore) (id : String) : OpResult Bool :=
  let gate := is_active s id
  if !gate.1 then ⟨false, s, gate.2⟩
  else
    let g := get_by_id s id
    let effs := gate.2 ++ g.2
    match g.1 with
    | none => ⟨false, s, effs⟩
    | some host =>
      if host.clusters.length > 0 then ⟨false, s, effs⟩
      else
        ⟨env.reset_container_host host.type host.daemon_url, s,
          effs ++ [Effect.daemonReset host.type host.daemon_url]⟩

/-- `create` (host.py:40-112).  `insert_one` assigns a fresh storage id and
`db_update_one({"_id": hid}, {"$set": {"id": str(hid)}})` then sets the
public id on exactly the just-inserted record (the `_id` filter cannot match
any other document); the pair is modelled as appending the record with its
public id already set, recording both store effects.  The `serialization`
flag only changes the wire format and is dropped. -/
def create (env : Env) (s : HostStore) (name daemon_url : String)
    (capacity : Int) (log_level log_type log_server : String)
    (fillup_flag : Bool) (schedulable : PyVal) : OpResult (Option Host) :=
  let nurl := normalize_daemon_url daemon_url
  let e1 := [Effect.storeFindOne "daemon_url" nurl]
  match find_one_by_url s nurl with
  | some _ => ⟨none, s, e1⟩
  | none =>
    let ls := normalize_log_server log_server
    let ls := if log_type == LOG_TYPES_0 then "" else ls
    let status := if env.check_daemon nurl then "active" else "inactive"
    let detected := env.detect_daemon_type nurl
    let e2 := e1 ++ [Effect.daemonCheck nurl, Effect.daemonDetect nurl,
                     Effect.daemonSetup detected nurl]
    if !env.setup_container_host detected nurl then ⟨none, s, e2⟩
    else
      let hrec : Host :=
        { id := env.fresh_id, name := name, daemon_url := nurl,
          create_ts := env.now, capacity := capacity, status := status,
          clusters := [], type := detected, log_level := log_level,
          log_type := log_type, log_server := ls, schedulable := schedulable }
      let s2 := s ++ [hrec]
      let e3 := e2 ++ [Effect.storeInsert hrec, Effect.storeSetId env.fresh_id]
      if capacity > 0 && fillup_flag then
        let f := fillup env s2 env.fresh_id
        ⟨some hrec, f.store, e3 ++ f.effs⟩
      else ⟨some hrec, s2, e3⟩

end HostHandler

/-- A concrete collaborator environment for concrete evaluations. -/
def env0 : Env :=
  { check_daemon := fun _ => true
    detect_daemon_type := fun _ => "docker"
    setup_container_host := fun _ _ => true
    reset_container_host := fun _ _ => true
    find_free_api_ports := fun _ _ => [7050, 7100]
    now := 0
    fresh_id := "f1" }

/-- An active host at capacity (two clusters, capacity 2). -/
def host1 : Host :=
  { id := "h1", name := "n1", daemon_url := "tcp://a:2375", create_ts := 0,
    capacity := 2, status := "active", clusters := ["c1", "c2"],
    type := "docker", log_level := "DEBUG", log_type := "syslog",
    log_server := "udp://ls:514", schedulable := PyVal.str "false" }

/-- An inactive host. -/
def host2 : Host :=
  { host1 with id := "h2", daemon_url := "tcp://b:2375", status := "inactive" }

/-- An active host with no clusters and spare capacity. -/
def host3 : Host :=
  { host1 with
    id := "h3"
    daemon_url := "tcp://c:2375"
    clusters := []
    capacity := 3 }

/-- A three-host store used by the concrete evaluations. -/
def store1 : HostStore := [host1, host2, host3]

/-- The all-absent update dict. -/
def HostHandler.UpdateDict.empty : HostHandler.UpdateDict :=
  ⟨none, none, none, none, none⟩

/-- The default `schedulable` argument of `create` (host.py:43): the Python
STRING `"false"`, not a boolean. -/
def create_schedulable_default : PyVal := PyVal.str "false"


/-! Helper lemmas about the store primitives and the operations. -/

/-- A `$set` patch never changes the public id of a record. -/
theorem applyPatch_id (p : Patch) (h : Host) : (applyPatch p h).id = h.id :=
  rfl

/-- When `find_one` locates a record, `find_one_and_update` (AFTER) returns
that record with the patch applied. -/
theorem findOneAndUpdateAfter_ret (id : String) (p : Patch) :
    ∀ (s : HostStore) (h : Host), s.find? (fun x => x.id == id) = some h →
      (findOneAndUpdateAfter id p s).1 = some (applyPatch p h) := by
  intro s
  induction s with
  | nil => intro h hf; simp [List.find?] at hf
  | cons a t ih =>
    intro h hf
    cases hb : (a.id == id) with
    | true =>
      have ha : some a = some h := by
        simpa only [List.find?_cons, hb] using hf
      cases ha
      simp [findOneAndUpdateAfter, hb]
    | false =>
      have hf' : t.find? (fun x => x.id == id) = some h := by
        simpa only [List.find?_cons, hb] using hf
      simp only [findOneAndUpdateAfter, hb, Bool.false_eq_true, if_false]
      exact ih h hf'

/-- Appending one record to a collection in which `find_one` misses makes the
appended record the first (and only) match, provided it satisfies the query. -/
theorem find?_append_of_none {α : Type} (p : α → Bool) (s : List α) (a : α)
    (hs : s.find? p = none) (ha : p a = true) :
    (s ++ [a]).find? p = some a := by
  induction s with
  | nil => simp [List.find?, ha]
  | cons b t ih =>
    cases hb : (p b) with
    | true =>
      exfalso
      have hc : some b = none := by
        simpa only [List.find?_cons, hb] using hs
      exact Option.noConfusion hc
    | false =>
      have hs' : t.find? p = none := by
        simpa only [List.find?_cons, hb] using hs
      simp only [List.cons_append, List.find?_cons, hb]
      exact ih hs'

/-- `fillup` never writes to the store: its only store accesses are reads. -/
theorem fillup_store (env : Env) (s : HostStore) (id : String) :
    (HostHandler.fillup env s id).store = s := by
  unfold HostHandler.fillup
  dsimp only
  split
  · rfl
  · split
    · rfl
    · split
      · rfl
      · rfl

/-- A `$set` patch never changes the cluster list (this core never writes
`clusters`; only the cluster subsystem's callbacks do). -/
theorem applyPatch_clusters (p : Patch) (h : Host) :
    (applyPatch p h).clusters = h.clusters :=
  rfl

/-- On an active host with a non-empty cluster list, `clean` reports success
and its effect trace is: the two status/record reads, the `schedulable=False`
write, one delete-task dispatch per cluster id in list order, then the
`schedulable=True` write. -/
theorem clean_spec (s : HostStore) (id : String) (h : Host)
    (hf : find_one_by_id s id = some h) (hs : h.status = "active")
    (hne : h.clusters ≠ []) :
    (HostHandler.clean s id).ret = true ∧
    (HostHandler.clean s id).effs
      = [Effect.storeFindOne "id" id, Effect.storeFindOne "id" id,
         Effect.storeSet id (sched_patch false)]
        ++ h.clusters.map Effect.provDeleteDispatch
        ++ [Effect.storeSet id (sched_patch true)] := by
  have hw : (findOneAndUpdateAfter id (sched_patch false) s).1
      = some (applyPatch (sched_patch false) h) :=
    findOneAndUpdateAfter_ret id (sched_patch false) s h hf
  simp [HostHandler.clean, HostHandler.is_active, HostHandler.get_by_id,
    HostHandler.db_set_by_id, hf, hs, hne, hw, applyPatch_clusters,
    Nat.le_zero, List.length_eq_zero]

/-! Claim theorems. -/

/-- C1: evaluation of the code at the failing input.  On the existing host
`h1`, `update` with a partial dict that carries no capacity key raises an
uncaught `KeyError("capacity")` instead of applying the field-level change:
the capacity guard at host.py:147 reads `d["capacity"]` outside the
`"capacity" in d` check of host.py:145. -/
theorem C1_update_keyerror_eval :
    HostHandler.update store1 "h1"
      { HostHandler.UpdateDict.empty with name := some "x" }
      = ⟨Except.error (PyErr.keyError "capacity"), store1,
         [Effect.storeFindOne "id" "h1"]⟩ := by decide

/-- C2 counterexample: on the inactive host `h2`, `clean` does return `false`,
but the claimed "no store call is made" fails: the `check_status` gate's
`is_active` performs a store read (`get_by_id` calls `col.find_one`). -/
theorem C2_gate_counterexample :
    (HostHandler.clean store1 "h2").ret = false ∧
    (HostHandler.clean store1 "h2").effs.any Effect.isStore = true := by decide

/-- C2 (amended): for every host id, calling `fillup`, `clean` or `reset`
when the host does not exist or its status is not "active" returns `false`
and is a no-op apart from the status check's store read: the store is
unchanged and the only effect is one `find_one` read, which is neither a
provisioner call nor a store write. -/
theorem C2_gated_inactive_noop (env : Env) (s : HostStore) (id : String)
    (hin : find_one_by_id s id = none ∨
      ∃ h, find_one_by_id s id = some h ∧ h.status ≠ "active") :
    HostHandler.fillup env s id
      = ⟨false, s, [Effect.storeFindOne "id" id]⟩ ∧
    HostHandler.clean s id = ⟨false, s, [Effect.storeFindOne "id" id]⟩ ∧
    HostHandler.reset env s id = ⟨false, s, [Effect.storeFindOne "id" id]⟩ ∧
    (Effect.storeFindOne "id" id).isProv = false ∧
    (Effect.storeFindOne "id" id).isStoreWrite = false := by
  have hgate : HostHandler.is_active s id
      = (false, [Effect.storeFindOne "id" id]) := by
    rcases hin with hnone | ⟨h, hfind, hstat⟩
    · simp [HostHandler.is_active, HostHandler.get_by_id, hnone]
    · simp [HostHandler.is_active, HostHandler.get_by_id, hfind, hstat]
  refine ⟨?_, ?_, ?_, rfl, rfl⟩
  · simp [HostHandler.fillup, hgate]
  · simp [HostHandler.clean, hgate]
  · simp [HostHandler.reset, hgate]

/-- C2 witness: the amended theorem applied to the concrete inactive host. -/
theorem C2_gated_inactive_noop_witness :
    (find_one_by_id store1 "h2" = none ∨
      ∃ h, find_one_by_id store1 "h2" = some h ∧ h.status ≠ "active") ∧
    (HostHandler.fillup env0 store1 "h2"
      = ⟨false, store1, [Effect.storeFindOne "id" "h2"]⟩ ∧
     HostHandler.clean store1 "h2"
      = ⟨false, store1, [Effect.storeFindOne "id" "h2"]⟩ ∧
     HostHandler.reset env0 store1 "h2"
      = ⟨false, store1, [Effect.storeFindOne "id" "h2"]⟩ ∧
     (Effect.storeFindOne "id" "h2").isProv = false ∧
     (Effect.storeFindOne "id" "h2").isStoreWrite = false) :=
  ⟨Or.inr ⟨host2, by decide, by decide⟩,
   C2_gated_inactive_noop env0 store1 "h2" (Or.inr ⟨host2, by decide, by decide⟩)⟩

/-- C3: the capacity guard in `update`.  On an existing host, an update dict
whose capacity key holds an integer `c` below the current cluster count fails
(returns the empty result), performs no store write (its only effect is the
`get_by_id` read) and leaves the store unchanged; and such a call can return
an updated record only when `c` is at least the cluster count held at call
time.  The middle conjunct shows why the last one is never triggered: once
the guard passes, the positional `db_set_by_id(id, d)` call at host.py:154
raises an uncaught `TypeError` — still with no store write and the store
unchanged — so no `update` call ever returns an updated record at all. -/
theorem C3_capacity_guard (s : HostStore) (id : String) (h : Host) (c : Int)
    (hf : find_one_by_id s id = some h) :
    (c < (h.clusters.length : Int) →
      HostHandler.update s id ⟨none, none, some (PyVal.int c), none, none⟩
        = ⟨Except.ok none, s, [Effect.storeFindOne "id" id]⟩) ∧
    ((h.clusters.length : Int) ≤ c →
      HostHandler.update s id ⟨none, none, some (PyVal.int c), none, none⟩
        = ⟨Except.error (PyErr.typeError HostHandler.db_set_by_id_typeerror_msg), s,
           [Effect.storeFindOne "id" id]⟩) ∧
    (∀ h', (HostHandler.update s id
        ⟨none, none, some (PyVal.int c), none, none⟩).ret
          = Except.ok (some h') → (h.clusters.length : Int) ≤ c) := by
  refine ⟨?_, ?_, ?_⟩
  · intro hlt
    simp [HostHandler.update, HostHandler.get_by_id, hf, hlt, pyInt, Except.map]
  · intro hge
    have hnotlt : ¬ (c < (h.clusters.length : Int)) := not_lt.mpr hge
    simp [HostHandler.update, HostHandler.get_by_id, hf, hnotlt, pyInt,
      Except.map]
  · intro h' hret
    by_contra hgt
    push_neg at hgt
    simp [HostHandler.update, HostHandler.get_by_id, hf, hgt, pyInt,
      Except.map] at hret

/-- C3 witness: the guard theorem at the concrete host `h1` (two clusters)
and capacity 1. -/
theorem C3_capacity_guard_witness :
    find_one_by_id store1 "h1" = some host1 ∧
    ((1 < ((host1.clusters.length : Nat) : Int) →
      HostHandler.update store1 "h1" ⟨none, none, some (PyVal.int 1), none, none⟩
        = ⟨Except.ok none, store1, [Effect.storeFindOne "id" "h1"]⟩) ∧
    (((host1.clusters.length : Nat) : Int) ≤ 1 →
      HostHandler.update store1 "h1" ⟨none, none, some (PyVal.int 1), none, none⟩
        = ⟨Except.error (PyErr.typeError HostHandler.db_set_by_id_typeerror_msg), store1,
           [Effect.storeFindOne "id" "h1"]⟩) ∧
    (∀ h', (HostHandler.update store1 "h1"
        ⟨none, none, some (PyVal.int 1), none, none⟩).ret
          = Except.ok (some h') → ((host1.clusters.length : Nat) : Int) ≤ 1)) :=
  ⟨by decide, C3_capacity_guard store1 "h1" host1 1 (by decide)⟩

/-- C4: when the daemon host-setup collaborator reports failure for the
detected daemon type at the normalized url, `create` returns the empty
failure result, the store is unchanged, and no record-insert effect occurs
(the setup check at host.py:84 runs before `insert_one` at host.py:101, so
no orphaned record can remain). -/
theorem C4_setup_failure_no_orphan (env : Env) (s : HostStore)
    (name daemon_url : String) (capacity : Int)
    (log_level log_type log_server : String) (fillup_flag : Bool)
    (schedulable : PyVal)
    (hsetup : env.setup_container_host
        (env.detect_daemon_type (normalize_daemon_url daemon_url))
        (normalize_daemon_url daemon_url) = false) :
    (HostHandler.create env s name daemon_url capacity log_level log_type
        log_server fillup_flag schedulable).ret = none ∧
    (HostHandler.create env s name daemon_url capacity log_level log_type
        log_server fillup_flag schedulable).store = s ∧
    (HostHandler.create env s name daemon_url capacity log_level log_type
        log_server fillup_flag schedulable).effs.any Effect.isInsert
      = false := by
  cases hdup : find_one_by_url s (normalize_daemon_url daemon_url) with
  | some hx => simp [HostHandler.create, hdup, Effect.isInsert]
  | none => simp [HostHandler.create, hdup, hsetup, Effect.isInsert]

/-- C4 witness: setup failure on an empty store with a collaborator whose
setup always refuses. -/
theorem C4_setup_failure_no_orphan_witness :
    ({ env0 with setup_container_host := fun _ _ => false
     } : Env).setup_container_host
        (({ env0 with setup_container_host := fun _ _ => false
          } : Env).detect_daemon_type (normalize_daemon_url "a:2375"))
        (normalize_daemon_url "a:2375") = false ∧
    ((HostHandler.create { env0 with setup_container_host := fun _ _ => false }
        [] "n1" "a:2375" 1 "DEBUG" "syslog" "ls:514" false
        (PyVal.str "false")).ret = none ∧
     (HostHandler.create { env0 with setup_container_host := fun _ _ => false }
        [] "n1" "a:2375" 1 "DEBUG" "syslog" "ls:514" false
        (PyVal.str "false")).store = [] ∧
     (HostHandler.create { env0 with setup_container_host := fun _ _ => false }
        [] "n1" "a:2375" 1 "DEBUG" "syslog" "ls:514" false
        (PyVal.str "false")).effs.any Effect.isInsert = false) :=
  ⟨rfl, C4_setup_failure_no_orphan _ [] "n1" "a:2375" 1 "DEBUG" "syslog"
    "ls:514" false (PyVal.str "false") rfl⟩

/-- Success path of `create`: with no duplicate url in the store and a
succeeding setup collaborator, `create` appends exactly one record, whose
fields are the normalized inputs, and returns it. -/
theorem create_spec (env : Env) (s : HostStore) (name u : String) (cap : Int)
    (ll lt lsv : String) (f : Bool) (sch : PyVal)
    (hfresh : find_one_by_url s (normalize_daemon_url u) = none)
    (hsetup : env.setup_container_host
        (env.detect_daemon_type (normalize_daemon_url u))
        (normalize_daemon_url u) = true) :
    ∃ hrec : Host,
      (HostHandler.create env s name u cap ll lt lsv f sch).ret = some hrec ∧
      (HostHandler.create env s name u cap ll lt lsv f sch).store
        = s ++ [hrec] ∧
      hrec.daemon_url = normalize_daemon_url u ∧
      hrec.schedulable = sch ∧
      hrec.name = name ∧
      hrec.capacity = cap := by
  refine ⟨{ id := env.fresh_id, name := name,
            daemon_url := normalize_daemon_url u,
            create_ts := env.now, capacity := cap,
            status := if env.check_daemon (normalize_daemon_url u)
              then "active" else "inactive",
            clusters := [],
            type := env.detect_daemon_type (normalize_daemon_url u),
            log_level := ll, log_type := lt,
            log_server := if lt == LOG_TYPES_0 then ""
              else normalize_log_server lsv,
            schedulable := sch }, ?_, ?_, rfl, rfl, rfl, rfl⟩
  · simp only [HostHandler.create, hfresh, hsetup, Bool.not_true,
      Bool.false_eq_true, if_false]
    split <;> rfl
  · simp only [HostHandler.create, hfresh, hsetup, Bool.not_true,
      Bool.false_eq_true, if_false]
    split
    · rw [fillup_store]
    · rfl

/-- C5: uniqueness is enforced on the normalized daemon address.  With no
record at the normalized url and a succeeding setup, a first `create`
returns a non-empty record; a second `create` — any name, any parameters,
any collaborator environment — whose url normalizes to the same value fails
with the empty result, no inserted record, and only the duplicate-check read
as its effect. -/
theorem C5_duplicate_daemon_url (env env2 : Env) (s : HostStore)
    (n1 u1 : String) (cap1 : Int) (ll1 lt1 ls1 : String) (f1 : Bool)
    (sch1 : PyVal) (n2 u2 : String) (cap2 : Int) (ll2 lt2 ls2 : String)
    (f2 : Bool) (sch2 : PyVal)
    (hnorm : normalize_daemon_url u2 = normalize_daemon_url u1)
    (hfresh : find_one_by_url s (normalize_daemon_url u1) = none)
    (hsetup : env.setup_container_host
        (env.detect_daemon_type (normalize_daemon_url u1))
        (normalize_daemon_url u1) = true) :
    (HostHandler.create env s n1 u1 cap1 ll1 lt1 ls1 f1 sch1).ret ≠ none ∧
    HostHandler.create env2
        (HostHandler.create env s n1 u1 cap1 ll1 lt1 ls1 f1 sch1).store
        n2 u2 cap2 ll2 lt2 ls2 f2 sch2
      = ⟨none,
         (HostHandler.create env s n1 u1 cap1 ll1 lt1 ls1 f1 sch1).store,
         [Effect.storeFindOne "daemon_url" (normalize_daemon_url u2)]⟩ := by
  obtain ⟨hrec, hret, hstore, hurl, -, -, -⟩ :=
    create_spec env s n1 u1 cap1 ll1 lt1 ls1 f1 sch1 hfresh hsetup
  have hdup2 : find_one_by_url (s ++ [hrec]) (normalize_daemon_url u2)
      = some hrec := by
    rw [hnorm]
    exact find?_append_of_none _ s hrec hfresh (by simp [hurl])
  constructor
  · rw [hret]; simp
  · rw [hstore]
    simp [HostHandler.create, hdup2]

/-- C5 witness: two creates against an initially empty store, with urls
`"a:2375"` and `"tcp://a:2375"` normalizing to the same address. -/
theorem C5_duplicate_daemon_url_witness :
    (normalize_daemon_url "tcp://a:2375" = normalize_daemon_url "a:2375" ∧
     find_one_by_url [] (normalize_daemon_url "a:2375") = none ∧
     env0.setup_container_host
       (env0.detect_daemon_type (normalize_daemon_url "a:2375"))
       (normalize_daemon_url "a:2375") = true) ∧
    ((HostHandler.create env0 [] "n1" "a:2375" 1 "DEBUG" "syslog" "ls:514"
        false (PyVal.str "false")).ret ≠ none ∧
     HostHandler.create env0
        (HostHandler.create env0 [] "n1" "a:2375" 1 "DEBUG" "syslog" "ls:514"
          false (PyVal.str "false")).store
        "n2" "tcp://a:2375" 2 "DEBUG" "syslog" "ls:514" false
        (PyVal.str "false")
      = ⟨none,
         (HostHandler.create env0 [] "n1" "a:2375" 1 "DEBUG" "syslog"
           "ls:514" false (PyVal.str "false")).store,
         [Effect.storeFindOne "daemon_url"
           (normalize_daemon_url "tcp://a:2375")]⟩) :=
  ⟨⟨by decide, by decide, rfl⟩,
   C5_duplicate_daemon_url env0 env0 [] "n1" "a:2375" 1 "DEBUG" "syslog"
     "ls:514" false (PyVal.str "false") "n2" "tcp://a:2375" 2 "DEBUG"
     "syslog" "ls:514" false (PyVal.str "false") (by decide) (by decide) rfl⟩

/-- C6: `fillup` on an active existing host whose cluster count is at or
above capacity returns `true` immediately: the store is unchanged and the
trace holds no provisioner effect (no port request, no creation dispatch). -/
theorem C6_fillup_at_capacity (env : Env) (s : HostStore) (id : String)
    (h : Host) (hf : find_one_by_id s id = some h)
    (hs : h.status = "active")
    (hcap : h.capacity ≤ (h.clusters.length : Int)) :
    (HostHandler.fillup env s id).ret = true ∧
    (HostHandler.fillup env s id).store = s ∧
    (HostHandler.fillup env s id).effs.any Effect.isProv = false := by
  have hnum : h.capacity - (h.clusters.length : Int) ≤ 0 := by omega
  refine ⟨?_, fillup_store env s id, ?_⟩ <;>
    simp [HostHandler.fillup, HostHandler.is_active, HostHandler.get_by_id,
      hf, hs, hnum, Effect.isProv]

/-- C6 witness: the at-capacity active host `h1` (capacity 2, two
clusters). -/
theorem C6_fillup_at_capacity_witness :
    (find_one_by_id store1 "h1" = some host1 ∧ host1.status = "active" ∧
     host1.capacity ≤ (host1.clusters.length : Int)) ∧
    ((HostHandler.fillup env0 store1 "h1").ret = true ∧
     (HostHandler.fillup env0 store1 "h1").store = store1 ∧
     (HostHandler.fillup env0 store1 "h1").effs.any Effect.isProv = false) :=
  ⟨⟨by decide, rfl, by decide⟩,
   C6_fillup_at_capacity env0 store1 "h1" host1 (by decide) rfl (by decide)⟩

/-- C7: `clean` on an active existing host.  With an empty cluster list it
returns success and performs only the two status/record reads (no store
write).  With a non-empty list it returns `true` and its trace is exactly:
the reads, the `schedulable=False` write, one independent delete dispatch
per listed cluster id in list order, then the `schedulable=True` write —
the restore follows the dispatches, not their completion. -/
theorem C7_clean_trace (s : HostStore) (id : String) (h : Host)
    (hf : find_one_by_id s id = some h) (hs : h.status = "active") :
    (h.clusters = [] →
      HostHandler.clean s id
        = ⟨true, s, [Effect.storeFindOne "id" id,
                     Effect.storeFindOne "id" id]⟩) ∧
    (h.clusters ≠ [] →
      (HostHandler.clean s id).ret = true ∧
      (HostHandler.clean s id).effs
        = [Effect.storeFindOne "id" id, Effect.storeFindOne "id" id,
           Effect.storeSet id (sched_patch false)]
          ++ h.clusters.map Effect.provDeleteDispatch
          ++ [Effect.storeSet id (sched_patch true)]) := by
  constructor
  · intro hemp
    simp [HostHandler.clean, HostHandler.is_active, HostHandler.get_by_id,
      hf, hs, hemp]
  · intro hne
    exact clean_spec s id h hf hs hne

/-- C7 witness: the empty-cluster host `h3` and the two-cluster host `h1`,
both active. -/
theorem C7_clean_trace_witness :
    HostHandler.clean store1 "h3"
      = ⟨true, store1, [Effect.storeFindOne "id" "h3",
                        Effect.storeFindOne "id" "h3"]⟩ ∧
    ((HostHandler.clean store1 "h1").ret = true ∧
     (HostHandler.clean store1 "h1").effs
       = [Effect.storeFindOne "id" "h1", Effect.storeFindOne "id" "h1",
          Effect.storeSet "h1" (sched_patch false)]
         ++ host1.clusters.map Effect.provDeleteDispatch
         ++ [Effect.storeSet "h1" (sched_patch true)]) :=
  ⟨(C7_clean_trace store1 "h3" host3 (by decide) rfl).1 (by decide),
   (C7_clean_trace store1 "h1" host1 (by decide) rfl).2 (by decide)⟩

/-- C8: `delete` fails and leaves the store untouched when the host is
missing or its cluster list is non-empty; on an existing host with no
clusters it performs the daemon-side cleanup and then removes the record,
returning `true`. -/
theorem C8_delete_guard (s : HostStore) (id : String) :
    (find_one_by_id s id = none →
      HostHandler.delete s id
        = ⟨false, s, [Effect.storeFindOne "id" id]⟩) ∧
    (∀ h, find_one_by_id s id = some h →
      (h.clusters ≠ [] →
        HostHandler.delete s id
          = ⟨false, s, [Effect.storeFindOne "id" id]⟩) ∧
      (h.clusters = [] →
        HostHandler.delete s id
          = ⟨true, List.eraseP (fun x => x.id == id) s,
             [Effect.storeFindOne "id" id,
              Effect.daemonCleanup h.daemon_url,
              Effect.storeDelete id]⟩)) := by
  refine ⟨fun hnone => ?_, fun h hf => ⟨fun hne => ?_, fun hemp => ?_⟩⟩
  · simp [HostHandler.delete, HostHandler.get_by_id, hnone]
  · simp [HostHandler.delete, HostHandler.get_by_id, hf, hne]
  · simp [HostHandler.delete, HostHandler.get_by_id, hf, hemp]

/-- C8 witness: a missing id, the two-cluster host `h1`, and the
cluster-free host `h3`. -/
theorem C8_delete_guard_witness :
    HostHandler.delete store1 "zz"
      = ⟨false, store1, [Effect.storeFindOne "id" "zz"]⟩ ∧
    HostHandler.delete store1 "h1"
      = ⟨false, store1, [Effect.storeFindOne "id" "h1"]⟩ ∧
    HostHandler.delete store1 "h3"
      = ⟨true, List.eraseP (fun x => x.id == "h3") store1,
         [Effect.storeFindOne "id" "h3",
          Effect.daemonCleanup host3.daemon_url,
          Effect.storeDelete "h3"]⟩ :=
  ⟨(C8_delete_guard store1 "zz").1 (by decide),
   ((C8_delete_guard store1 "h1").2 host1 (by decide)).1 (by decide),
   ((C8_delete_guard store1 "h3").2 host3 (by decide)).2 (by decide)⟩

/-- A list is a `isPrefixOf`-check prefix of itself followed by anything. -/
theorem isPrefixOf_append_self {α : Type} [BEq α] [LawfulBEq α]
    (l t : List α) : l.isPrefixOf (l ++ t) = true := by
  induction l with
  | nil => simp [List.isPrefixOf]
  | cons a as ih => simp [List.isPrefixOf, ih]

/-- `(pre ++ rest).startswith(pre)` always holds. -/
theorem pyStartswith_append (pre rest : String) :
    pyStartswith (pre ++ rest) pre = true := by
  unfold pyStartswith
  have hd : (pre ++ rest).data = pre.data ++ rest.data := rfl
  rw [hd]
  exact isPrefixOf_append_self _ _

/-- The `daemon_url` normalization is idempotent. -/
theorem normalize_daemon_url_idem (v : String) :
    normalize_daemon_url (normalize_daemon_url v) = normalize_daemon_url v := by
  unfold normalize_daemon_url
  cases hv : pyStartswith v "tcp://" with
  | true => simp [hv]
  | false => simp [hv, pyStartswith_append]

/-- C9: evaluation of the code at the failing input, together with the
parts of the claim the code does satisfy.  The `daemon_url` normalization is
idempotent (`normalize (normalize v) = normalize v` for every string), and
`create` on the schemeless url `"a:2375"` persists it with the transport
scheme prepended exactly once.  The "same rule applies in update" part fails
in the program: on host `h1`, `update` with the schemeless url `"d:2375"`
and an admissible capacity normalizes only the local dict (host.py:142-143)
and then raises an uncaught `TypeError` at host.py:154, so the store is
unchanged and no record with the normalized url `"tcp://d:2375"` is ever
persisted through `update`. -/
theorem C9_daemon_url_normalization_eval :
    (∀ v, normalize_daemon_url (normalize_daemon_url v)
        = normalize_daemon_url v) ∧
    (HostHandler.create env0 [] "n1" "a:2375" 1 "DEBUG" "syslog" "ls:514"
        false (PyVal.str "false")).ret.map Host.daemon_url
      = some ("tcp://" ++ "a:2375") ∧
    HostHandler.update store1 "h1"
        ⟨none, some "d:2375", some (PyVal.int 2), none, none⟩
      = ⟨Except.error (PyErr.typeError HostHandler.db_set_by_id_typeerror_msg), store1,
         [Effect.storeFindOne "id" "h1"]⟩ ∧
    find_one_by_url store1 (normalize_daemon_url "d:2375") = none :=
  ⟨normalize_daemon_url_idem, by decide, by decide, by decide⟩

/-- C10: `create` persists the `schedulable` argument exactly as passed,
with no validation or coercion; the default argument is the string
`"false"`, a truthy Python value, whereas `clean` writes the booleans
`False` and `True` to the same field. -/
theorem C10_schedulable_untyped (env : Env) (s : HostStore) (name u : String)
    (cap : Int) (ll lt lsv : String) (f : Bool) (sch : PyVal)
    (s3 : HostStore) (id3 : String) (hx : Host)
    (hfresh : find_one_by_url s (normalize_daemon_url u) = none)
    (hsetup : env.setup_container_host
        (env.detect_daemon_type (normalize_daemon_url u))
        (normalize_daemon_url u) = true)
    (hf3 : find_one_by_id s3 id3 = some hx) (hs3 : hx.status = "active")
    (hne3 : hx.clusters ≠ []) :
    (∀ h', (HostHandler.create env s name u cap ll lt lsv f sch).ret
        = some h' → h'.schedulable = sch) ∧
    create_schedulable_default = PyVal.str "false" ∧
    PyVal.truthy create_schedulable_default = true ∧
    (sched_patch false).schedulable = some (PyVal.bool false) ∧
    (sched_patch true).schedulable = some (PyVal.bool true) ∧
    Effect.storeSet id3 (sched_patch false)
      ∈ (HostHandler.clean s3 id3).effs ∧
    Effect.storeSet id3 (sched_patch true)
      ∈ (HostHandler.clean s3 id3).effs := by
  obtain ⟨hrec, hret, -, -, hsched, -, -⟩ :=
    create_spec env s name u cap ll lt lsv f sch hfresh hsetup
  have heffs := (clean_spec s3 id3 hx hf3 hs3 hne3).2
  refine ⟨?_, rfl, rfl, rfl, rfl, ?_, ?_⟩
  · intro h' h'eq
    rw [hret] at h'eq
    cases h'eq
    exact hsched
  · rw [heffs]; simp
  · rw [heffs]; simp

/-- C10 witness: a create with the default `schedulable` string over an
empty store, and `clean` on the active two-cluster host `h1`. -/
theorem C10_schedulable_untyped_witness :
    (find_one_by_url [] (normalize_daemon_url "a:2375") = none ∧
     env0.setup_container_host
       (env0.detect_daemon_type (normalize_daemon_url "a:2375"))
       (normalize_daemon_url "a:2375") = true ∧
     find_one_by_id store1 "h1" = some host1 ∧
     host1.status = "active" ∧ host1.clusters ≠ []) ∧
    ((∀ h', (HostHandler.create env0 [] "n1" "a:2375" 1 "DEBUG" "syslog"
          "ls:514" false create_schedulable_default).ret = some h' →
        h'.schedulable = create_schedulable_default) ∧
     create_schedulable_default = PyVal.str "false" ∧
     PyVal.truthy create_schedulable_default = true ∧
     (sched_patch false).schedulable = some (PyVal.bool false) ∧
     (sched_patch true).schedulable = some (PyVal.bool true) ∧
     Effect.storeSet "h1" (sched_patch false)
       ∈ (HostHandler.clean store1 "h1").effs ∧
     Effect.storeSet "h1" (sched_patch true)
       ∈ (HostHandler.clean store1 "h1").effs) :=
  ⟨⟨by decide, rfl, by decide, rfl, by decide⟩,
   C10_schedulable_untyped env0 [] "n1" "a:2375" 1 "DEBUG" "syslog" "ls:514"
     false create_schedulable_default store1 "h1" host1 (by decide) rfl
     (by decide) rfl (by decide)⟩
